import Mathlib

/-!
Shallow embedding of the resilient transport layer of the eventlog library
(`src/eventlog/transport.py`): connections, the bounded connection pool,
`NetTransport.send` with its retry loop, the health-checker start logic
(`waitTillUp`) and the `TCPSocketFactory`.  Network outcomes (socket writes,
connects) are supplied by an oracle environment; everything else is a direct
translation of the Python code.  Line numbers in doc comments refer to
`transport.py`.
-/

set_option linter.unusedVariables false

namespace Eventlog

/-- A wire message: an opaque byte sequence.  The transport only ever uses a
message's length and its raw bytes. -/
abbrev Msg := List Nat

/-- Modelled from the spec: `transport.py` imports `Counter` from
`eventlog.stats`, a module not present in the sources; per the spec the stats
counters are monotonically increasing counters supporting `inc(n)`.  A counter
is modelled as its natural-number value. -/
abbrev Counter := Nat

/-- Modelled from the spec: `Counter.inc(n)` adds `n` to the counter. -/
def Counter.inc (c : Counter) (n : Nat) : Counter := c + n

/-- Oracle environment: `sendOk k` is the outcome of the k-th low-level socket
write performed by the process, `connOk k` the outcome of its k-th socket
connect attempt.  A raw write either delivers its whole buffer (true) or raises
having delivered nothing (false): partial byte-level delivery is below the
granularity of this model. -/
structure NetEnv where
  sendOk : Nat → Bool
  connOk : Nat → Bool

/-- Connection wraps a socket with a status flag (lines 142-175).  `sock` holds
the socket id, `none` once closed; `ok` is the `_ok` flag. -/
structure Connection where
  sock : Option Nat
  ok : Bool
deriving DecidableEq, Repr

/-- Connection.isGood (158-159): the socket is present and `_ok` holds. -/
def Connection.isGood (c : Connection) : Bool := c.sock.isSome && c.ok

/-- Connection.close (167-175): drop the socket and clear `_ok`; idempotent and
never raises. -/
def Connection.close (c : Connection) : Connection := { sock := none, ok := false }

/-- Connection.reject (162-164): clear `_ok`, then close. -/
def Connection.reject (c : Connection) : Connection :=
  ({ c with ok := false } : Connection).close

/-- State of the transport subsystem.  `conns` is the store of every connection
object ever created (id = index); `pool` holds the ids of idle pooled
connections, newest first (the head corresponds to the right end of the Python
deque, where `append` and `pop` operate; the last element is the oldest).
`delivered` is the sequence of message buffers successfully written to the
wire, i.e. what a test receiver observes.  `takeLog` records, for each
`ConnectionPool.take` call, whether it was served from the pool (`true`) or by
creating a fresh connection (`false`).  `sleeps` counts executed backoff
sleeps, `checkerStarts` counts health-checker thread launches. -/
structure TxState where
  conns : List Connection
  pool : List Nat
  poolCap : Nat
  writeOps : Nat
  connectOps : Nat
  socketCounter : Counter
  socketErrors : Counter
  eventsSent : Counter
  bytesSent : Counter
  delivered : List Msg
  status : Bool
  checkerStarts : Nat
  sleeps : Nat
  nextSock : Nat
  takeLog : List Bool
deriving DecidableEq, Repr

/-- Read a connection from the store (a missing id reads as a closed, bad
connection, which no code path ever hands out). -/
def TxState.getConn (s : TxState) (i : Nat) : Connection :=
  s.conns.getD i { sock := none, ok := false }

/-- Write back a connection object. -/
def TxState.setConn (s : TxState) (i : Nat) (c : Connection) : TxState :=
  { s with conns := s.conns.set i c }

/-- Connection.sendall (149-156): set `_ok := false`, perform the raw socket
write - which raises when the socket is gone or when the environment fails the
write - then set `_ok := true`.  Returns `false` when the write raised.  A
successful raw write appends the buffer to the `delivered` trace. -/
def sendall (env : NetEnv) (cid : Nat) (m : Msg) (s : TxState) : Bool × TxState :=
  let c := s.getConn cid
  let s1 := s.setConn cid { c with ok := false }
  match c.sock with
  | none => (false, s1)
  | some _ =>
    let ok := env.sendOk s1.writeOps
    let s2 := { s1 with writeOps := s1.writeOps + 1 }
    if ok then
      let s3 := { s2 with delivered := s2.delivered ++ [m] }
      (true, s3.setConn cid { c with ok := true })
    else (false, s2)

/-- TCPSocketFactory configuration (339-351); `counterSet` records whether
`setCounter` was called with a counter. -/
structure TCPSocketFactory where
  tls_enable : Bool
  tls_verify : Bool
  has_ca_certs : Bool
  counterSet : Bool
deriving DecidableEq, Repr

/-- Certificate requirement chosen by the TLS branch of create_socket
(371-376). -/
inductive CertReqs
  | required
  | optional
  | noCert
deriving DecidableEq, Repr

/-- The `cert_reqs` computation of create_socket's TLS branch (371-376). -/
def TCPSocketFactory.certReqs (f : TCPSocketFactory) : CertReqs :=
  if f.tls_verify then .required
  else if f.has_ca_certs then .optional
  else .noCert

/-- TCPSocketFactory.create_socket (359-383): a single connect attempt, no
retry.  On success in plain-TCP mode the shared socket counter is incremented
when `stats` holds and a counter is set, and the socket is returned; in TLS
mode the socket is wrapped (with `certReqs` as above) and returned - the TLS
branch does not touch the counter.  Returns `none` when connect raises. -/
def TCPSocketFactory.create_socket (f : TCPSocketFactory) (stats : Bool)
    (env : NetEnv) (s : TxState) : Option Nat × TxState :=
  let ok := env.connOk s.connectOps
  let s1 := { s with connectOps := s.connectOps + 1 }
  if !ok then (none, s1)
  else
    let sid := s1.nextSock
    let s2 := { s1 with nextSock := sid + 1 }
    if !f.tls_enable then
      if stats && f.counterSet then
        (some sid, { s2 with socketCounter := Counter.inc s2.socketCounter 1 })
      else (some sid, s2)
    else
      (some sid, s2)

/-- Inner loop of ConnectionPool.take (111-117): pop connections from the
newest end, returning the first good one and closing each bad one on the way.
Returns the popped id (if a good one was found), the updated connection store
and the remaining pool. -/
def takeLoop : List Connection → List Nat → Option Nat × List Connection × List Nat
  | conns, [] => (none, conns, [])
  | conns, cid :: rest =>
    let c := conns.getD cid { sock := none, ok := false }
    if c.isGood then (some cid, conns, rest)
    else takeLoop (conns.set cid c.close) rest

/-- ConnectionPool._makeConnection (129-130): wrap a freshly created socket in
a new Connection (stats-enabled create, the Python default). -/
def makeConnection (f : TCPSocketFactory) (env : NetEnv) (s : TxState) :
    Option Nat × TxState :=
  match f.create_socket true env s with
  | (none, s1) => (none, s1)
  | (some sid, s1) =>
    (some s1.conns.length,
      { s1 with conns := s1.conns ++ [{ sock := some sid, ok := true }] })

namespace ConnectionPool

/-- ConnectionPool.take (110-120): pop from the pool until a good connection is
found (closing bad ones); when the pool runs empty, create a fresh connection.
The take is logged as pooled (`true`) or fresh (`false`).  Returns `none` when
creating the fresh connection raised. -/
def take (f : TCPSocketFactory) (env : NetEnv) (s : TxState) : Option Nat × TxState :=
  match takeLoop s.conns s.pool with
  | (some cid, conns1, rest) =>
    (some cid, { s with conns := conns1, pool := rest, takeLog := s.takeLog ++ [true] })
  | (none, conns1, _) =>
    makeConnection f env
      { s with conns := conns1, pool := [], takeLog := s.takeLog ++ [false] }

/-- ConnectionPool.release (122-127): `None` is ignored; a good connection is
appended at the newest end of the bounded deque - on overflow the oldest
element is silently dropped (deque `maxlen` semantics: the dropped connection
is not closed); a bad connection is closed and never pooled. -/
def release (s : TxState) (conn : Option Nat) : TxState :=
  match conn with
  | none => s
  | some cid =>
    let c := s.getConn cid
    if c.isGood then { s with pool := (cid :: s.pool).take s.poolCap }
    else s.setConn cid c.close

/-- ConnectionPool.closeAll (134-139): close every idle connection and empty
the pool. -/
def closeAll (s : TxState) : TxState :=
  { s with pool := [],
           conns := s.pool.foldl
             (fun cs cid => cs.set cid ((cs.getD cid { sock := none, ok := false }).close))
             s.conns }

end ConnectionPool

/-- Result of the send retry loop: the accumulators `total_bytes`,
`total_msgs`, `attemptNum` and the state at loop exit. -/
structure LoopSt where
  totalBytes : Nat
  totalMsgs : Nat
  attempts : Nat
  state : TxState
deriving DecidableEq, Repr

/-- Result of the for-loop of NetTransport.send: whether a write raised, the
`total_bytes` and `total_msgs` accumulators, and the state. -/
structure ForSt where
  raised : Bool
  totalBytes : Nat
  totalMsgs : Nat
  state : TxState
deriving DecidableEq, Repr

/-- The for-loop body of NetTransport.send (259-262): write the messages one at
a time on connection `cid`, adding each message's length to `total_bytes` and
bumping `total_msgs` after each successful write; the first write that raises
aborts the loop (`raised := true`). -/
def sendMsgs (env : NetEnv) (cid : Nat) :
    List Msg → Nat → Nat → TxState → ForSt
  | [], tb, tm, s => { raised := false, totalBytes := tb, totalMsgs := tm, state := s }
  | m :: rest, tb, tm, s =>
    match sendall env cid m s with
    | (true, s1) => sendMsgs env cid rest (tb + m.length) (tm + 1) s1
    | (false, s1) => { raised := true, totalBytes := tb, totalMsgs := tm, state := s1 }

/-- The bottom-of-loop backoff check of NetTransport.send (271-272): execute
the fixed `time.sleep(0.05)` exactly when `attemptNum < max_attempts`
(modelled by bumping the `sleeps` counter). -/
def maybeSleep (attemptNum maxAtt : Nat) (s : TxState) : TxState :=
  if attemptNum < maxAtt then { s with sleeps := s.sleeps + 1 } else s

/-- The while loop of NetTransport.send (252-272), one recursive call per
iteration.  A failed iteration rejects its connection (when one was acquired),
counts a socket error, bumps `attemptNum`, releases the connection in the
`finally` block, and sleeps the fixed backoff when `attemptNum` is still below
`max_attempts`.  An iteration whose for-loop completes without raising grows
`total_msgs` by `len(messages)`, so the while guard
`total_msgs < len(messages)` is then false and the iteration is the last one;
it still releases its connection and executes the bottom-of-loop sleep check
before the loop exits.  Every iteration that continues the loop increments
`attemptNum`, which the guard bounds by `max_attempts`, so the loop runs at
most `max_attempts - attemptNum` more iterations; the recursion is fed that
bound as explicit fuel (`sendLoop_fuel_stable` below shows any fuel at least
this large yields the same result, so the fuel never truncates the loop). -/
def sendLoop (env : NetEnv) (f : TCPSocketFactory) (msgs : List Msg) (maxAtt : Nat) :
    Nat → Nat → Nat → Nat → TxState → LoopSt
  | 0, tb, tm, att, s => { totalBytes := tb, totalMsgs := tm, attempts := att, state := s }
  | fuel + 1, tb, tm, att, s =>
    if tm < msgs.length ∧ att < maxAtt then
      match ConnectionPool.take f env s with
      | (none, s1) =>
        -- take raised, conn is None: the except branch runs, then release(None)
        let s2 := { s1 with socketErrors := Counter.inc s1.socketErrors 1 }
        let s3 := ConnectionPool.release s2 none
        sendLoop env f msgs maxAtt fuel tb tm (att + 1) (maybeSleep (att + 1) maxAtt s3)
      | (some cid, s1) =>
        let r := sendMsgs env cid msgs tb tm s1
        if r.raised then
          let s3 := r.state.setConn cid ((r.state.getConn cid).reject)
          let s4 := { s3 with socketErrors := Counter.inc s3.socketErrors 1 }
          let s5 := ConnectionPool.release s4 (some cid)
          sendLoop env f msgs maxAtt fuel r.totalBytes r.totalMsgs (att + 1)
            (maybeSleep (att + 1) maxAtt s5)
        else
          let s3 := ConnectionPool.release r.state (some cid)
          { totalBytes := r.totalBytes, totalMsgs := r.totalMsgs, attempts := att,
            state := maybeSleep att maxAtt s3 }
    else { totalBytes := tb, totalMsgs := tm, attempts := att, state := s }

/-- NetTransport.waitTillUp (299-335): under the status lock, return at once
when the status is already down; otherwise flip it down and start exactly one
background checker thread (modelled by counting thread launches). -/
def NetTransport.waitTillUp (s : TxState) : TxState :=
  if s.status then
    { s with status := false, checkerStarts := s.checkerStarts + 1 }
  else s

/-- Outcome of NetTransport.send: whether it raised, the final accumulators and
the final state. -/
structure SendOutcome where
  raised : Bool
  totalMsgs : Nat
  totalBytes : Nat
  attempts : Nat
  state : TxState
deriving DecidableEq, Repr

/-- NetTransport.send (242-283).  The `messages` argument is already a list
(the isinstance normalization of 250-251 is the identity on lists); the
elapsed-wall-time stat is not modelled.  After the loop the events-sent and
bytes-sent stats are recorded unconditionally; when `total_msgs` is still below
`len(messages)` the transport runs `waitTillUp`, closes the pooled connections
and raises. -/
def NetTransport.send (env : NetEnv) (f : TCPSocketFactory) (maxAtt : Nat)
    (msgs : List Msg) (s : TxState) : SendOutcome :=
  let r := sendLoop env f msgs maxAtt maxAtt 0 0 0 s
  let s1 := { r.state with
              eventsSent := Counter.inc r.state.eventsSent r.totalMsgs,
              bytesSent := Counter.inc r.state.bytesSent r.totalBytes }
  if r.totalMsgs < msgs.length then
    let s2 := NetTransport.waitTillUp s1
    let s3 := ConnectionPool.closeAll s2
    { raised := true, totalMsgs := r.totalMsgs, totalBytes := r.totalBytes,
      attempts := r.attempts, state := s3 }
  else
    { raised := false, totalMsgs := r.totalMsgs, totalBytes := r.totalBytes,
      attempts := r.attempts, state := s1 }

/-- The state a NetTransport starts from (NetTransport.__init__, 208-217): an
empty pool of capacity `cap`, zeroed counters, status up, no connections. -/
def initState (cap : Nat) : TxState :=
  { conns := [], pool := [], poolCap := cap, writeOps := 0, connectOps := 0,
    socketCounter := 0, socketErrors := 0, eventsSent := 0, bytesSent := 0,
    delivered := [], status := true, checkerStarts := 0, sleeps := 0,
    nextSock := 0, takeLog := [] }

/-- N sequential NetTransport.send calls of the same batch. -/
def sendN (env : NetEnv) (f : TCPSocketFactory) (maxAtt : Nat) (msgs : List Msg) :
    Nat → TxState → TxState
  | 0, s => s
  | n + 1, s => sendN env f maxAtt msgs n (NetTransport.send env f maxAtt msgs s).state

/-- An environment in which every write and every connect succeeds. -/
def allOk : NetEnv := { sendOk := fun _ => true, connOk := fun _ => true }

/-- The factory NetTransport.createFromEnv builds: plain TCP, counter set. -/
def plainFactory : TCPSocketFactory :=
  { tls_enable := false, tls_verify := false, has_ca_certs := false, counterSet := true }

/-- An environment whose writes number 2 and 4 (0-indexed, process-wide) fail
and whose connects all succeed. -/
def envDrop24 : NetEnv := { sendOk := fun k => !(k == 2 || k == 4), connOk := fun _ => true }

/-- An environment whose very first write fails and whose connects all
succeed. -/
def envDrop0 : NetEnv := { sendOk := fun k => !(k == 0), connOk := fun _ => true }

/-- An environment in which every socket write fails (a dead receiver) while
connects still succeed. -/
def envDown : NetEnv := { sendOk := fun _ => false, connOk := fun _ => true }

/-- A transport state holding two good idle connections in the pool. -/
def twoPooled : TxState :=
  { initState 2 with
    conns := [{ sock := some 0, ok := true }, { sock := some 1, ok := true }],
    pool := [0, 1], nextSock := 2 }

/-- A state for the eviction scenario: capacity 1, connection 0 idle in the
pool, connection 1 just used by a caller and about to be released. -/
def capOneState : TxState :=
  { initState 1 with
    conns := [{ sock := some 0, ok := true }, { sock := some 1, ok := true }],
    pool := [0], nextSock := 2 }

/-- A TLS-enabled factory with the stats counter set. -/
def tlsFactory : TCPSocketFactory :=
  { tls_enable := true, tls_verify := false, has_ca_certs := false, counterSet := true }

/- ------------------------------------------------------------------ -/
/- Helper lemmas -/
/- ------------------------------------------------------------------ -/

theorem getConn_lt_of_isGood {s : TxState} {i : Nat}
    (h : (s.getConn i).isGood = true) : i < s.conns.length := by
  by_contra hi
  rw [TxState.getConn, List.getD_eq_default _ _ (by omega)] at h
  simp [Connection.isGood] at h

theorem getConn_setConn_self {s : TxState} {i : Nat} (c : Connection)
    (h : i < s.conns.length) : (s.setConn i c).getConn i = c := by
  rw [TxState.getConn, TxState.setConn]
  rw [List.getD_eq_getElem _ _ (by rw [List.length_set]; omega)]
  exact List.getElem_set_self _

theorem sendall_delivered (env : NetEnv) (cid : Nat) (m : Msg) (s : TxState) :
    (sendall env cid m s).2.delivered =
      if (sendall env cid m s).1 then s.delivered ++ [m] else s.delivered := by
  rcases hs : (s.getConn cid).sock with _ | x <;>
    simp only [sendall, hs, TxState.setConn] <;>
    [skip; cases he : env.sendOk s.writeOps] <;> simp [*]

theorem sendall_frame (env : NetEnv) (cid : Nat) (m : Msg) (s : TxState) :
    (sendall env cid m s).2.pool = s.pool ∧
    (sendall env cid m s).2.poolCap = s.poolCap ∧
    (sendall env cid m s).2.sleeps = s.sleeps ∧
    (sendall env cid m s).2.status = s.status ∧
    (sendall env cid m s).2.checkerStarts = s.checkerStarts ∧
    (sendall env cid m s).2.socketCounter = s.socketCounter ∧
    (sendall env cid m s).2.connectOps = s.connectOps ∧
    (sendall env cid m s).2.takeLog = s.takeLog ∧
    (sendall env cid m s).2.conns.length = s.conns.length := by
  rcases hs : (s.getConn cid).sock with _ | x <;>
    simp only [sendall, hs, TxState.setConn] <;>
    [skip; cases he : env.sendOk s.writeOps] <;> simp [*]

theorem isGood_getD_set_ok_false (l : List Connection) (i : Nat) (o : Option Nat) :
    ((l.set i { sock := o, ok := false }).getD i { sock := none, ok := false }).isGood
      = false := by
  rcases Nat.lt_or_ge i l.length with hlt | hge
  · rw [List.getD_eq_getElem _ _ (by simp [List.length_set]; omega)]
    rw [List.getElem_set_self]
    simp [Connection.isGood]
  · rw [List.getD_eq_default _ _ (by simp [List.length_set]; omega)]
    simp [Connection.isGood]

theorem getD_set_set_self (l : List Connection) (i : Nat) (a b : Connection)
    (h : i < l.length) :
    ((l.set i a).set i b).getD i { sock := none, ok := false } = b := by
  rw [List.getD_eq_getElem _ _ (by simp [List.length_set]; omega)]
  exact List.getElem_set_self _

theorem sendall_isGood_false (env : NetEnv) (cid : Nat) (m : Msg) (s : TxState)
    (h : (sendall env cid m s).1 = false) :
    ((sendall env cid m s).2.getConn cid).isGood = false := by
  rcases hs : (s.getConn cid).sock with _ | x
  · simp only [sendall]
    simp only [hs]
    simp only [TxState.setConn, TxState.getConn]
    exact isGood_getD_set_ok_false _ _ _
  · cases he : env.sendOk s.writeOps
    · simp only [sendall]
      simp only [hs]
      simp only [TxState.setConn, TxState.getConn]
      simp only [he, Bool.false_eq_true, if_false]
      exact isGood_getD_set_ok_false _ _ _
    · simp [sendall, hs, TxState.setConn, he] at h

theorem sendall_isGood_true (env : NetEnv) (cid : Nat) (m : Msg) (s : TxState)
    (h : (sendall env cid m s).1 = true) :
    (sendall env cid m s).2.getConn cid =
      { sock := (s.getConn cid).sock, ok := true } ∧
    ((sendall env cid m s).2.getConn cid).isGood = true := by
  rcases hs : (s.getConn cid).sock with _ | x
  · simp [sendall, hs] at h
  · have hlt : cid < s.conns.length := by
      by_contra h1
      rw [TxState.getConn, List.getD_eq_default _ _ (by omega)] at hs
      simp at hs
    cases he : env.sendOk s.writeOps
    · simp [sendall, hs, TxState.setConn, he] at h
    · have hkey : (sendall env cid m s).2.getConn cid =
          { sock := some x, ok := true } := by
        simp only [sendall]
        simp only [hs]
        simp only [TxState.setConn, TxState.getConn]
        simp only [he, if_true]
        exact getD_set_set_self _ _ _ _ hlt
      constructor
      · exact hkey
      · rw [hkey]
        simp [Connection.isGood]

theorem sendall_ok_of (env : NetEnv) (cid : Nat) (m : Msg) (s : TxState) (x : Nat)
    (hsock : (s.getConn cid).sock = some x) (he : env.sendOk s.writeOps = true) :
    (sendall env cid m s).1 = true := by
  simp only [sendall]
  simp only [hsock]
  simp only [TxState.setConn, TxState.getConn]
  simp [he]

theorem sendMsgs_delivered (env : NetEnv) (cid : Nat) (ms : List Msg)
    (tb tm : Nat) (s : TxState) :
    (sendMsgs env cid ms tb tm s).state.delivered.length + tm =
      s.delivered.length + (sendMsgs env cid ms tb tm s).totalMsgs := by
  induction ms generalizing tb tm s with
  | nil => simp [sendMsgs]
  | cons m rest ih =>
    have hd := sendall_delivered env cid m s
    rcases hq : sendall env cid m s with ⟨ok, s1⟩
    rw [hq] at hd
    cases ok
    · simp only [sendMsgs, hq]
      simp only [Bool.false_eq_true, if_false] at hd
      simp [hd]
    · simp only [sendMsgs, hq]
      have h2 := ih (tb + m.length) (tm + 1) s1
      simp only [if_true] at hd
      have hlen : s1.delivered.length = s.delivered.length + 1 := by
        rw [hd]; simp
      omega

theorem sendMsgs_frame (env : NetEnv) (cid : Nat) (ms : List Msg)
    (tb tm : Nat) (s : TxState) :
    (sendMsgs env cid ms tb tm s).state.pool = s.pool ∧
    (sendMsgs env cid ms tb tm s).state.poolCap = s.poolCap ∧
    (sendMsgs env cid ms tb tm s).state.sleeps = s.sleeps ∧
    (sendMsgs env cid ms tb tm s).state.status = s.status ∧
    (sendMsgs env cid ms tb tm s).state.checkerStarts = s.checkerStarts ∧
    (sendMsgs env cid ms tb tm s).state.socketCounter = s.socketCounter ∧
    (sendMsgs env cid ms tb tm s).state.connectOps = s.connectOps ∧
    (sendMsgs env cid ms tb tm s).state.takeLog = s.takeLog ∧
    (sendMsgs env cid ms tb tm s).state.conns.length = s.conns.length := by
  induction ms generalizing tb tm s with
  | nil => simp [sendMsgs]
  | cons m rest ih =>
    have hf := sendall_frame env cid m s
    rcases hq : sendall env cid m s with ⟨ok, s1⟩
    rw [hq] at hf
    cases ok
    · simpa [sendMsgs, hq] using hf
    · simp only [sendMsgs, hq]
      obtain ⟨a1, a2, a3, a4, a5, a6, a7, a8, a9⟩ := ih (tb + m.length) (tm + 1) s1
      obtain ⟨b1, b2, b3, b4, b5, b6, b7, b8, b9⟩ := hf
      exact ⟨a1.trans b1, a2.trans b2, a3.trans b3, a4.trans b4, a5.trans b5,
        a6.trans b6, a7.trans b7, a8.trans b8, a9.trans b9⟩

theorem sendMsgs_totalMsgs_of_ok (env : NetEnv) (cid : Nat) (ms : List Msg)
    (tb tm : Nat) (s : TxState)
    (h : (sendMsgs env cid ms tb tm s).raised = false) :
    (sendMsgs env cid ms tb tm s).totalMsgs = tm + ms.length := by
  induction ms generalizing tb tm s with
  | nil => simp [sendMsgs]
  | cons m rest ih =>
    rcases hq : sendall env cid m s with ⟨ok, s1⟩
    cases ok
    · rw [sendMsgs, hq] at h
      simp at h
    · rw [sendMsgs, hq] at h ⊢
      rw [ih _ _ _ h]
      simp
      omega

theorem sendMsgs_totalMsgs_le (env : NetEnv) (cid : Nat) (ms : List Msg)
    (tb tm : Nat) (s : TxState) :
    tm ≤ (sendMsgs env cid ms tb tm s).totalMsgs ∧
    (sendMsgs env cid ms tb tm s).totalMsgs ≤ tm + ms.length := by
  induction ms generalizing tb tm s with
  | nil => simp [sendMsgs]
  | cons m rest ih =>
    rcases hq : sendall env cid m s with ⟨ok, s1⟩
    cases ok
    · simp [sendMsgs, hq]
    · rw [sendMsgs, hq]
      have := ih (tb + m.length) (tm + 1) s1
      simp only [List.length_cons]
      omega

theorem sendMsgs_allOk (env : NetEnv) (cid : Nat) (ms : List Msg)
    (tb tm : Nat) (s : TxState)
    (hS : ∀ k, env.sendOk k = true) (hg : (s.getConn cid).isGood = true) :
    (sendMsgs env cid ms tb tm s).raised = false ∧
    ((sendMsgs env cid ms tb tm s).state.getConn cid).isGood = true := by
  induction ms generalizing tb tm s with
  | nil => simpa [sendMsgs] using hg
  | cons m rest ih =>
    have hx : ∃ x, (s.getConn cid).sock = some x := by
      rcases hsk : (s.getConn cid).sock with _ | x
      · rw [Connection.isGood, hsk] at hg
        simp at hg
      · exact ⟨x, rfl⟩
    rcases hx with ⟨x, hsk⟩
    have hok := sendall_ok_of env cid m s x hsk (hS s.writeOps)
    have hgood := (sendall_isGood_true env cid m s hok).2
    rcases hq : sendall env cid m s with ⟨ok, s1⟩
    rw [hq] at hok hgood
    subst hok
    rw [sendMsgs, hq]
    exact ih (tb + m.length) (tm + 1) s1 hgood

theorem takeLoop_good (conns : List Connection) (pool : List Nat) (cid : Nat)
    (cs : List Connection) (rest : List Nat)
    (h : takeLoop conns pool = (some cid, cs, rest)) :
    (cs.getD cid { sock := none, ok := false }).isGood = true := by
  induction pool generalizing conns with
  | nil => simp [takeLoop] at h
  | cons p ps ih =>
    by_cases hg : (conns.getD p { sock := none, ok := false }).isGood = true
    · rw [takeLoop] at h
      simp only [hg, if_true, Prod.mk.injEq, Option.some.injEq] at h
      obtain ⟨h1, h2, h3⟩ := h
      subst h1; subst h2
      exact hg
    · rw [takeLoop] at h
      simp only [hg, if_false] at h
      simp only [Bool.not_eq_true] at hg
      simp only [hg, Bool.false_eq_true, if_false] at h
      exact ih _ h

theorem takeLoop_length (conns : List Connection) (pool : List Nat) :
    (takeLoop conns pool).2.1.length = conns.length := by
  induction pool generalizing conns with
  | nil => simp [takeLoop]
  | cons p ps ih =>
    rw [takeLoop]
    by_cases hg : (conns.getD p { sock := none, ok := false }).isGood = true
    · simp only [hg, if_true]
    · simp only [Bool.not_eq_true] at hg
      simp only [hg, Bool.false_eq_true, if_false]
      rw [ih]
      simp [List.length_set]

theorem reject_eq (c : Connection) : c.reject = { sock := none, ok := false } := rfl

theorem getConn_setConn_closed (t : TxState) (cid : Nat) :
    (t.setConn cid { sock := none, ok := false }).getConn cid
      = { sock := none, ok := false } := by
  rcases Nat.lt_or_ge cid t.conns.length with hlt | hge
  · exact getConn_setConn_self _ hlt
  · simp only [TxState.setConn, TxState.getConn]
    rw [List.getD_eq_default _ _ (by simp [List.length_set]; omega)]

theorem create_socket_frame (f : TCPSocketFactory) (stats : Bool) (env : NetEnv)
    (s : TxState) :
    (f.create_socket stats env s).2.delivered = s.delivered ∧
    (f.create_socket stats env s).2.sleeps = s.sleeps ∧
    (f.create_socket stats env s).2.status = s.status ∧
    (f.create_socket stats env s).2.checkerStarts = s.checkerStarts ∧
    (f.create_socket stats env s).2.poolCap = s.poolCap ∧
    (f.create_socket stats env s).2.writeOps = s.writeOps ∧
    (f.create_socket stats env s).2.socketErrors = s.socketErrors ∧
    (f.create_socket stats env s).2.eventsSent = s.eventsSent ∧
    (f.create_socket stats env s).2.bytesSent = s.bytesSent ∧
    (f.create_socket stats env s).2.pool = s.pool ∧
    (f.create_socket stats env s).2.conns = s.conns ∧
    (f.create_socket stats env s).2.takeLog = s.takeLog ∧
    (f.create_socket stats env s).2.connectOps = s.connectOps + 1 := by
  rw [TCPSocketFactory.create_socket]
  split
  · simp
  · split
    · split <;> simp
    · simp

theorem take_eq_pooled (f : TCPSocketFactory) (env : NetEnv) (s : TxState)
    (cid : Nat) (cs : List Connection) (rest : List Nat)
    (htl : takeLoop s.conns s.pool = (some cid, cs, rest)) :
    ConnectionPool.take f env s =
      (some cid, { s with conns := cs, pool := rest, takeLog := s.takeLog ++ [true] }) := by
  unfold ConnectionPool.take
  rw [htl]

theorem take_eq_fresh (f : TCPSocketFactory) (env : NetEnv) (s : TxState)
    (cs : List Connection) (rest : List Nat)
    (htl : takeLoop s.conns s.pool = (none, cs, rest)) :
    ConnectionPool.take f env s =
      makeConnection f env
        { s with conns := cs, pool := [], takeLog := s.takeLog ++ [false] } := by
  unfold ConnectionPool.take
  rw [htl]

theorem makeConnection_eq_none (f : TCPSocketFactory) (env : NetEnv) (s s1 : TxState)
    (hc : f.create_socket true env s = (none, s1)) :
    makeConnection f env s = (none, s1) := by
  unfold makeConnection
  rw [hc]

theorem makeConnection_eq_some (f : TCPSocketFactory) (env : NetEnv) (s : TxState)
    (sid : Nat) (s1 : TxState)
    (hc : f.create_socket true env s = (some sid, s1)) :
    makeConnection f env s =
      (some s1.conns.length,
        { s1 with conns := s1.conns ++ [{ sock := some sid, ok := true }] }) := by
  unfold makeConnection
  rw [hc]

theorem create_socket_isSome (f : TCPSocketFactory) (stats : Bool) (env : NetEnv)
    (s : TxState) (hC : env.connOk s.connectOps = true) :
    (f.create_socket stats env s).1.isSome = true := by
  rw [TCPSocketFactory.create_socket]
  simp only [hC, Bool.not_true, Bool.false_eq_true, if_false]
  split
  · split <;> simp
  · simp

theorem take_frame (f : TCPSocketFactory) (env : NetEnv) (s : TxState) :
    (ConnectionPool.take f env s).2.delivered = s.delivered ∧
    (ConnectionPool.take f env s).2.sleeps = s.sleeps ∧
    (ConnectionPool.take f env s).2.status = s.status ∧
    (ConnectionPool.take f env s).2.checkerStarts = s.checkerStarts ∧
    (ConnectionPool.take f env s).2.poolCap = s.poolCap ∧
    (ConnectionPool.take f env s).2.writeOps = s.writeOps ∧
    (ConnectionPool.take f env s).2.socketErrors = s.socketErrors ∧
    (ConnectionPool.take f env s).2.eventsSent = s.eventsSent ∧
    (ConnectionPool.take f env s).2.bytesSent = s.bytesSent := by
  rcases htl : takeLoop s.conns s.pool with ⟨co, cs, rest⟩
  cases co with
  | some p =>
    rw [take_eq_pooled f env s p cs rest htl]
    exact ⟨rfl, rfl, rfl, rfl, rfl, rfl, rfl, rfl, rfl⟩
  | none =>
    rw [take_eq_fresh f env s cs rest htl]
    have hcf := create_socket_frame f true env
      { s with conns := cs, pool := [], takeLog := s.takeLog ++ [false] }
    rcases hc : f.create_socket true env
      { s with conns := cs, pool := [], takeLog := s.takeLog ++ [false] } with ⟨r, s1⟩
    rw [hc] at hcf
    cases r with
    | none =>
      rw [makeConnection_eq_none _ _ _ _ hc]
      exact ⟨hcf.1, hcf.2.1, hcf.2.2.1, hcf.2.2.2.1, hcf.2.2.2.2.1, hcf.2.2.2.2.2.1,
        hcf.2.2.2.2.2.2.1, hcf.2.2.2.2.2.2.2.1, hcf.2.2.2.2.2.2.2.2.1⟩
    | some sid =>
      rw [makeConnection_eq_some _ _ _ _ _ hc]
      exact ⟨hcf.1, hcf.2.1, hcf.2.2.1, hcf.2.2.2.1, hcf.2.2.2.2.1, hcf.2.2.2.2.2.1,
        hcf.2.2.2.2.2.2.1, hcf.2.2.2.2.2.2.2.1, hcf.2.2.2.2.2.2.2.2.1⟩

theorem take_good (f : TCPSocketFactory) (env : NetEnv) (s : TxState) (cid : Nat)
    (h : (ConnectionPool.take f env s).1 = some cid) :
    ((ConnectionPool.take f env s).2.getConn cid).isGood = true := by
  rcases htl : takeLoop s.conns s.pool with ⟨co, cs, rest⟩
  cases co with
  | some p =>
    rw [take_eq_pooled f env s p cs rest htl] at h ⊢
    simp only [Option.some.injEq] at h
    subst h
    simpa [TxState.getConn] using takeLoop_good s.conns s.pool _ _ _ htl
  | none =>
    rw [take_eq_fresh f env s cs rest htl] at h ⊢
    rcases hc : f.create_socket true env
      { s with conns := cs, pool := [], takeLog := s.takeLog ++ [false] } with ⟨r, s1⟩
    cases r with
    | none =>
      rw [makeConnection_eq_none _ _ _ _ hc] at h
      simp at h
    | some sid =>
      rw [makeConnection_eq_some _ _ _ _ _ hc] at h ⊢
      simp only [Option.some.injEq] at h
      subst h
      simp only [TxState.getConn]
      rw [List.getD_append_right _ _ _ _ (le_refl _)]
      simp [Connection.isGood]

theorem take_some_of_connOk (f : TCPSocketFactory) (env : NetEnv) (s : TxState)
    (hC : ∀ k, env.connOk k = true) :
    (ConnectionPool.take f env s).1.isSome = true := by
  rcases htl : takeLoop s.conns s.pool with ⟨co, cs, rest⟩
  cases co with
  | some p =>
    rw [take_eq_pooled f env s p cs rest htl]
    simp
  | none =>
    rw [take_eq_fresh f env s cs rest htl]
    have hs := create_socket_isSome f true env
      { s with conns := cs, pool := [], takeLog := s.takeLog ++ [false] } (hC _)
    rcases hc : f.create_socket true env
      { s with conns := cs, pool := [], takeLog := s.takeLog ++ [false] } with ⟨r, s1⟩
    rw [hc] at hs
    cases r with
    | none => simp at hs
    | some sid =>
      rw [makeConnection_eq_some _ _ _ _ _ hc]
      simp

theorem take_pooled (f : TCPSocketFactory) (env : NetEnv) (s : TxState) (cid : Nat)
    (hpool : s.pool = [cid]) (hg : (s.getConn cid).isGood = true) :
    ConnectionPool.take f env s =
      (some cid, { s with pool := [], takeLog := s.takeLog ++ [true] }) := by
  rw [TxState.getConn] at hg
  rw [ConnectionPool.take, hpool, takeLoop]
  simp only [hg, if_true]

theorem release_good (s : TxState) (cid : Nat) (hg : (s.getConn cid).isGood = true) :
    ConnectionPool.release s (some cid) =
      { s with pool := (cid :: s.pool).take s.poolCap } := by
  simp [ConnectionPool.release, hg]

theorem release_bad (s : TxState) (cid : Nat) (hg : (s.getConn cid).isGood = false) :
    ConnectionPool.release s (some cid) =
      s.setConn cid { sock := none, ok := false } := by
  simp [ConnectionPool.release, hg, Connection.close]

theorem release_frame (s : TxState) (conn : Option Nat) :
    (ConnectionPool.release s conn).delivered = s.delivered ∧
    (ConnectionPool.release s conn).sleeps = s.sleeps ∧
    (ConnectionPool.release s conn).status = s.status ∧
    (ConnectionPool.release s conn).checkerStarts = s.checkerStarts ∧
    (ConnectionPool.release s conn).poolCap = s.poolCap ∧
    (ConnectionPool.release s conn).writeOps = s.writeOps ∧
    (ConnectionPool.release s conn).connectOps = s.connectOps ∧
    (ConnectionPool.release s conn).socketCounter = s.socketCounter ∧
    (ConnectionPool.release s conn).takeLog = s.takeLog ∧
    (ConnectionPool.release s conn).socketErrors = s.socketErrors ∧
    (ConnectionPool.release s conn).eventsSent = s.eventsSent ∧
    (ConnectionPool.release s conn).bytesSent = s.bytesSent ∧
    (ConnectionPool.release s conn).conns.length = s.conns.length := by
  cases conn with
  | none => simp [ConnectionPool.release]
  | some cid =>
    rw [ConnectionPool.release]
    split <;> simp [TxState.setConn, List.length_set]

theorem release_reject (s : TxState) (cid : Nat) :
    (ConnectionPool.release (s.setConn cid ((s.getConn cid).reject)) (some cid)).pool
      = s.pool ∧
    (ConnectionPool.release (s.setConn cid ((s.getConn cid).reject)) (some cid)).getConn cid
      = { sock := none, ok := false } := by
  rw [reject_eq]
  have hbad : ((s.setConn cid { sock := none, ok := false }).getConn cid).isGood = false := by
    rw [getConn_setConn_closed]
    simp [Connection.isGood]
  rw [release_bad _ _ hbad]
  constructor
  · simp [TxState.setConn]
  · exact getConn_setConn_closed _ cid

theorem closeAll_frame (s : TxState) :
    (ConnectionPool.closeAll s).delivered = s.delivered ∧
    (ConnectionPool.closeAll s).sleeps = s.sleeps ∧
    (ConnectionPool.closeAll s).status = s.status ∧
    (ConnectionPool.closeAll s).checkerStarts = s.checkerStarts ∧
    (ConnectionPool.closeAll s).poolCap = s.poolCap ∧
    (ConnectionPool.closeAll s).writeOps = s.writeOps ∧
    (ConnectionPool.closeAll s).connectOps = s.connectOps ∧
    (ConnectionPool.closeAll s).socketCounter = s.socketCounter ∧
    (ConnectionPool.closeAll s).takeLog = s.takeLog ∧
    (ConnectionPool.closeAll s).eventsSent = s.eventsSent ∧
    (ConnectionPool.closeAll s).bytesSent = s.bytesSent := by
  simp [ConnectionPool.closeAll]

theorem waitTillUp_frame (s : TxState) :
    (NetTransport.waitTillUp s).delivered = s.delivered ∧
    (NetTransport.waitTillUp s).sleeps = s.sleeps ∧
    (NetTransport.waitTillUp s).pool = s.pool ∧
    (NetTransport.waitTillUp s).poolCap = s.poolCap ∧
    (NetTransport.waitTillUp s).conns = s.conns ∧
    (NetTransport.waitTillUp s).writeOps = s.writeOps ∧
    (NetTransport.waitTillUp s).connectOps = s.connectOps ∧
    (NetTransport.waitTillUp s).socketCounter = s.socketCounter ∧
    (NetTransport.waitTillUp s).takeLog = s.takeLog ∧
    (NetTransport.waitTillUp s).eventsSent = s.eventsSent ∧
    (NetTransport.waitTillUp s).bytesSent = s.bytesSent := by
  rw [NetTransport.waitTillUp]
  split <;> simp

theorem maybeSleep_frame (a mA : Nat) (s : TxState) :
    (maybeSleep a mA s).delivered = s.delivered ∧
    (maybeSleep a mA s).status = s.status ∧
    (maybeSleep a mA s).pool = s.pool ∧
    (maybeSleep a mA s).poolCap = s.poolCap ∧
    (maybeSleep a mA s).conns = s.conns ∧
    (maybeSleep a mA s).socketCounter = s.socketCounter ∧
    (maybeSleep a mA s).connectOps = s.connectOps ∧
    (maybeSleep a mA s).checkerStarts = s.checkerStarts ∧
    (maybeSleep a mA s).takeLog = s.takeLog := by
  rw [maybeSleep]
  split <;> simp

theorem maybeSleep_sleeps (a mA : Nat) (s : TxState) :
    (maybeSleep a mA s).sleeps = s.sleeps + (if a < mA then 1 else 0) := by
  rw [maybeSleep]
  split <;> simp

theorem sendLoop_zero (env : NetEnv) (f : TCPSocketFactory) (msgs : List Msg)
    (maxAtt tb tm att : Nat) (s : TxState) :
    sendLoop env f msgs maxAtt 0 tb tm att s =
      { totalBytes := tb, totalMsgs := tm, attempts := att, state := s } := by
  rw [sendLoop]

theorem sendLoop_guard_false (env : NetEnv) (f : TCPSocketFactory) (msgs : List Msg)
    (maxAtt fuel tb tm att : Nat) (s : TxState)
    (hg : ¬(tm < msgs.length ∧ att < maxAtt)) :
    sendLoop env f msgs maxAtt (fuel + 1) tb tm att s =
      { totalBytes := tb, totalMsgs := tm, attempts := att, state := s } := by
  rw [sendLoop, if_neg hg]

theorem sendLoop_succ_take_fail (env : NetEnv) (f : TCPSocketFactory) (msgs : List Msg)
    (maxAtt fuel tb tm att : Nat) (s s1 : TxState)
    (hg : tm < msgs.length ∧ att < maxAtt)
    (ht : ConnectionPool.take f env s = (none, s1)) :
    sendLoop env f msgs maxAtt (fuel + 1) tb tm att s =
      sendLoop env f msgs maxAtt fuel tb tm (att + 1)
        (maybeSleep (att + 1) maxAtt
          (ConnectionPool.release
            { s1 with socketErrors := Counter.inc s1.socketErrors 1 } none)) := by
  rw [sendLoop, if_pos hg, ht]

theorem sendLoop_succ_raised (env : NetEnv) (f : TCPSocketFactory) (msgs : List Msg)
    (maxAtt fuel tb tm att : Nat) (s : TxState) (cid : Nat) (s1 : TxState)
    (hg : tm < msgs.length ∧ att < maxAtt)
    (ht : ConnectionPool.take f env s = (some cid, s1))
    (hr : (sendMsgs env cid msgs tb tm s1).raised = true) :
    sendLoop env f msgs maxAtt (fuel + 1) tb tm att s =
      sendLoop env f msgs maxAtt fuel
        (sendMsgs env cid msgs tb tm s1).totalBytes
        (sendMsgs env cid msgs tb tm s1).totalMsgs (att + 1)
        (maybeSleep (att + 1) maxAtt
          (ConnectionPool.release
            { (sendMsgs env cid msgs tb tm s1).state.setConn cid
                (((sendMsgs env cid msgs tb tm s1).state.getConn cid).reject) with
              socketErrors :=
                Counter.inc
                  ((sendMsgs env cid msgs tb tm s1).state.setConn cid
                    (((sendMsgs env cid msgs tb tm s1).state.getConn cid).reject)).socketErrors
                  1 }
            (some cid))) := by
  rw [sendLoop, if_pos hg, ht]
  simp only [hr, if_true]

theorem sendLoop_succ_success (env : NetEnv) (f : TCPSocketFactory) (msgs : List Msg)
    (maxAtt fuel tb tm att : Nat) (s : TxState) (cid : Nat) (s1 : TxState)
    (hg : tm < msgs.length ∧ att < maxAtt)
    (ht : ConnectionPool.take f env s = (some cid, s1))
    (hr : (sendMsgs env cid msgs tb tm s1).raised = false) :
    sendLoop env f msgs maxAtt (fuel + 1) tb tm att s =
      { totalBytes := (sendMsgs env cid msgs tb tm s1).totalBytes,
        totalMsgs := (sendMsgs env cid msgs tb tm s1).totalMsgs,
        attempts := att,
        state := maybeSleep att maxAtt
          (ConnectionPool.release (sendMsgs env cid msgs tb tm s1).state (some cid)) } := by
  rw [sendLoop, if_pos hg, ht]
  simp only [hr, Bool.false_eq_true, if_false]

theorem sendLoop_invariants (env : NetEnv) (f : TCPSocketFactory) (msgs : List Msg)
    (maxAtt : Nat) :
    ∀ fuel tb tm att s,
      (sendLoop env f msgs maxAtt fuel tb tm att s).state.delivered.length + tm =
        s.delivered.length + (sendLoop env f msgs maxAtt fuel tb tm att s).totalMsgs ∧
      (sendLoop env f msgs maxAtt fuel tb tm att s).state.status = s.status ∧
      (sendLoop env f msgs maxAtt fuel tb tm att s).state.poolCap = s.poolCap := by
  intro fuel
  induction fuel with
  | zero =>
    intro tb tm att s
    rw [sendLoop_zero]
    exact ⟨rfl, rfl, rfl⟩
  | succ fuel ih =>
    intro tb tm att s
    by_cases hg : tm < msgs.length ∧ att < maxAtt
    · have htf := take_frame f env s
      rcases ht : ConnectionPool.take f env s with ⟨co, s1⟩
      rw [ht] at htf
      simp only [] at htf
      cases co with
      | none =>
        rw [sendLoop_succ_take_fail env f msgs maxAtt fuel tb tm att s s1 hg ht]
        have hrec := ih tb tm (att + 1)
          (maybeSleep (att + 1) maxAtt
            (ConnectionPool.release
              { s1 with socketErrors := Counter.inc s1.socketErrors 1 } none))
        have hdel : (maybeSleep (att + 1) maxAtt
            (ConnectionPool.release
              { s1 with socketErrors := Counter.inc s1.socketErrors 1 } none)).delivered
            = s.delivered := by
          rw [(maybeSleep_frame _ _ _).1, (release_frame _ _).1]
          exact htf.1
        have hst : (maybeSleep (att + 1) maxAtt
            (ConnectionPool.release
              { s1 with socketErrors := Counter.inc s1.socketErrors 1 } none)).status
            = s.status := by
          rw [(maybeSleep_frame _ _ _).2.1, (release_frame _ _).2.2.1]
          exact htf.2.2.1
        have hcap : (maybeSleep (att + 1) maxAtt
            (ConnectionPool.release
              { s1 with socketErrors := Counter.inc s1.socketErrors 1 } none)).poolCap
            = s.poolCap := by
          rw [(maybeSleep_frame _ _ _).2.2.2.1, (release_frame _ _).2.2.2.2.1]
          exact htf.2.2.2.2.1
        have hlen := congrArg List.length hdel
        refine ⟨by omega, hrec.2.1.trans hst, hrec.2.2.trans hcap⟩
      | some cid =>
        have hmf := sendMsgs_frame env cid msgs tb tm s1
        have hmd := sendMsgs_delivered env cid msgs tb tm s1
        rcases hr : (sendMsgs env cid msgs tb tm s1).raised with _ | _
        · rw [sendLoop_succ_success env f msgs maxAtt fuel tb tm att s cid s1 hg ht hr]
          have hdel : (maybeSleep att maxAtt
              (ConnectionPool.release (sendMsgs env cid msgs tb tm s1).state (some cid))).delivered
              = (sendMsgs env cid msgs tb tm s1).state.delivered := by
            rw [(maybeSleep_frame _ _ _).1, (release_frame _ _).1]
          have hst : (maybeSleep att maxAtt
              (ConnectionPool.release (sendMsgs env cid msgs tb tm s1).state (some cid))).status
              = (sendMsgs env cid msgs tb tm s1).state.status := by
            rw [(maybeSleep_frame _ _ _).2.1, (release_frame _ _).2.2.1]
          have hcap : (maybeSleep att maxAtt
              (ConnectionPool.release (sendMsgs env cid msgs tb tm s1).state (some cid))).poolCap
              = (sendMsgs env cid msgs tb tm s1).state.poolCap := by
            rw [(maybeSleep_frame _ _ _).2.2.2.1, (release_frame _ _).2.2.2.2.1]
          have hlen := congrArg List.length hdel
          have hdl := congrArg List.length htf.1
          refine ⟨?_, ?_, ?_⟩
          · show (maybeSleep att maxAtt
                (ConnectionPool.release (sendMsgs env cid msgs tb tm s1).state
                  (some cid))).delivered.length + tm =
              s.delivered.length + (sendMsgs env cid msgs tb tm s1).totalMsgs
            omega
          · exact hst.trans (hmf.2.2.2.1.trans htf.2.2.1)
          · exact hcap.trans (hmf.2.1.trans htf.2.2.2.2.1)
        · rw [sendLoop_succ_raised env f msgs maxAtt fuel tb tm att s cid s1 hg ht hr]
          have hdel : (maybeSleep (att + 1) maxAtt
              (ConnectionPool.release
                { (sendMsgs env cid msgs tb tm s1).state.setConn cid
                    (((sendMsgs env cid msgs tb tm s1).state.getConn cid).reject) with
                  socketErrors :=
                    Counter.inc
                      ((sendMsgs env cid msgs tb tm s1).state.setConn cid
                        (((sendMsgs env cid msgs tb tm s1).state.getConn cid).reject)).socketErrors
                      1 }
                (some cid))).delivered
              = (sendMsgs env cid msgs tb tm s1).state.delivered := by
            rw [(maybeSleep_frame _ _ _).1, (release_frame _ _).1]
            exact rfl
          have hst : (maybeSleep (att + 1) maxAtt
              (ConnectionPool.release
                { (sendMsgs env cid msgs tb tm s1).state.setConn cid
                    (((sendMsgs env cid msgs tb tm s1).state.getConn cid).reject) with
                  socketErrors :=
                    Counter.inc
                      ((sendMsgs env cid msgs tb tm s1).state.setConn cid
                        (((sendMsgs env cid msgs tb tm s1).state.getConn cid).reject)).socketErrors
                      1 }
                (some cid))).status
              = (sendMsgs env cid msgs tb tm s1).state.status := by
            rw [(maybeSleep_frame _ _ _).2.1, (release_frame _ _).2.2.1]
            exact rfl
          have hcap : (maybeSleep (att + 1) maxAtt
              (ConnectionPool.release
                { (sendMsgs env cid msgs tb tm s1).state.setConn cid
                    (((sendMsgs env cid msgs tb tm s1).state.getConn cid).reject) with
                  socketErrors :=
                    Counter.inc
                      ((sendMsgs env cid msgs tb tm s1).state.setConn cid
                        (((sendMsgs env cid msgs tb tm s1).state.getConn cid).reject)).socketErrors
                      1 }
                (some cid))).poolCap
              = (sendMsgs env cid msgs tb tm s1).state.poolCap := by
            rw [(maybeSleep_frame _ _ _).2.2.2.1, (release_frame _ _).2.2.2.2.1]
            exact rfl
          have hrec := ih (sendMsgs env cid msgs tb tm s1).totalBytes
            (sendMsgs env cid msgs tb tm s1).totalMsgs (att + 1)
            (maybeSleep (att + 1) maxAtt
              (ConnectionPool.release
                { (sendMsgs env cid msgs tb tm s1).state.setConn cid
                    (((sendMsgs env cid msgs tb tm s1).state.getConn cid).reject) with
                  socketErrors :=
                    Counter.inc
                      ((sendMsgs env cid msgs tb tm s1).state.setConn cid
                        (((sendMsgs env cid msgs tb tm s1).state.getConn cid).reject)).socketErrors
                      1 }
                (some cid)))
          have hlen := congrArg List.length hdel
          have hdl := congrArg List.length htf.1
          refine ⟨by omega, ?_, ?_⟩
          · exact hrec.2.1.trans (hst.trans (hmf.2.2.2.1.trans htf.2.2.1))
          · exact hrec.2.2.trans (hcap.trans (hmf.2.1.trans htf.2.2.2.2.1))
    · rw [sendLoop_guard_false env f msgs maxAtt fuel tb tm att s hg]
      exact ⟨rfl, rfl, rfl⟩

theorem sendLoop_exhaust (env : NetEnv) (f : TCPSocketFactory) (msgs : List Msg)
    (maxAtt : Nat) :
    ∀ fuel tb tm att s, att ≤ maxAtt → maxAtt ≤ att + fuel →
      (sendLoop env f msgs maxAtt fuel tb tm att s).totalMsgs < msgs.length →
      (sendLoop env f msgs maxAtt fuel tb tm att s).attempts = maxAtt ∧
      (sendLoop env f msgs maxAtt fuel tb tm att s).state.sleeps =
        s.sleeps + (maxAtt - 1 - att) := by
  intro fuel
  induction fuel with
  | zero =>
    intro tb tm att s h1 h2 h3
    rw [sendLoop_zero] at h3 ⊢
    simp only [] at h3 ⊢
    have : att = maxAtt := by omega
    subst this
    exact ⟨rfl, by omega⟩
  | succ fuel ih =>
    intro tb tm att s h1 h2 h3
    by_cases hg : tm < msgs.length ∧ att < maxAtt
    · have htf := take_frame f env s
      rcases ht : ConnectionPool.take f env s with ⟨co, s1⟩
      rw [ht] at htf
      simp only [] at htf
      cases co with
      | none =>
        rw [sendLoop_succ_take_fail env f msgs maxAtt fuel tb tm att s s1 hg ht] at h3 ⊢
        have hsl : (maybeSleep (att + 1) maxAtt
            (ConnectionPool.release
              { s1 with socketErrors := Counter.inc s1.socketErrors 1 } none)).sleeps
            = s.sleeps + (if att + 1 < maxAtt then 1 else 0) := by
          rw [maybeSleep_sleeps, (release_frame _ _).2.1]
          have : ({ s1 with socketErrors := Counter.inc s1.socketErrors 1 } : TxState).sleeps
              = s.sleeps := htf.2.1
          omega
        have hrec := ih tb tm (att + 1) _ (by omega) (by omega) h3
        refine ⟨hrec.1, ?_⟩
        rw [hrec.2, hsl]
        by_cases hc : att + 1 < maxAtt <;> simp only [hc, if_true, if_false] <;> omega
      | some cid =>
        have hmf := sendMsgs_frame env cid msgs tb tm s1
        rcases hr : (sendMsgs env cid msgs tb tm s1).raised with _ | _
        · rw [sendLoop_succ_success env f msgs maxAtt fuel tb tm att s cid s1 hg ht hr] at h3
          exfalso
          have := sendMsgs_totalMsgs_of_ok env cid msgs tb tm s1 hr
          simp only [] at h3
          omega
        · rw [sendLoop_succ_raised env f msgs maxAtt fuel tb tm att s cid s1 hg ht hr] at h3 ⊢
          have hsl : (maybeSleep (att + 1) maxAtt
              (ConnectionPool.release
                { (sendMsgs env cid msgs tb tm s1).state.setConn cid
                    (((sendMsgs env cid msgs tb tm s1).state.getConn cid).reject) with
                  socketErrors :=
                    Counter.inc
                      ((sendMsgs env cid msgs tb tm s1).state.setConn cid
                        (((sendMsgs env cid msgs tb tm s1).state.getConn cid).reject)).socketErrors
                      1 }
                (some cid))).sleeps
              = s.sleeps + (if att + 1 < maxAtt then 1 else 0) := by
            rw [maybeSleep_sleeps, (release_frame _ _).2.1]
            have hx : ((sendMsgs env cid msgs tb tm s1).state.setConn cid
                (((sendMsgs env cid msgs tb tm s1).state.getConn cid).reject)).sleeps
                = s.sleeps := by
              have h5 : ((sendMsgs env cid msgs tb tm s1).state.setConn cid
                  (((sendMsgs env cid msgs tb tm s1).state.getConn cid).reject)).sleeps
                  = (sendMsgs env cid msgs tb tm s1).state.sleeps := rfl
              rw [h5, hmf.2.2.1, htf.2.1]
            have h6 : ({ (sendMsgs env cid msgs tb tm s1).state.setConn cid
                    (((sendMsgs env cid msgs tb tm s1).state.getConn cid).reject) with
                  socketErrors :=
                    Counter.inc
                      ((sendMsgs env cid msgs tb tm s1).state.setConn cid
                        (((sendMsgs env cid msgs tb tm s1).state.getConn cid).reject)).socketErrors
                      1 } : TxState).sleeps
                = ((sendMsgs env cid msgs tb tm s1).state.setConn cid
                    (((sendMsgs env cid msgs tb tm s1).state.getConn cid).reject)).sleeps := rfl
            omega
          have hrec := ih (sendMsgs env cid msgs tb tm s1).totalBytes
            (sendMsgs env cid msgs tb tm s1).totalMsgs (att + 1) _ (by omega) (by omega) h3
          refine ⟨hrec.1, ?_⟩
          rw [hrec.2, hsl]
          by_cases hc : att + 1 < maxAtt <;> simp only [hc, if_true, if_false] <;> omega
    · rw [sendLoop_guard_false env f msgs maxAtt fuel tb tm att s hg] at h3 ⊢
      simp only [] at h3 ⊢
      have : att = maxAtt := by omega
      subst this
      exact ⟨rfl, by omega⟩

theorem sendLoop_fuel_succ (env : NetEnv) (f : TCPSocketFactory) (msgs : List Msg)
    (maxAtt : Nat) :
    ∀ fuel tb tm att s, maxAtt ≤ att + fuel →
      sendLoop env f msgs maxAtt (fuel + 1) tb tm att s =
        sendLoop env f msgs maxAtt fuel tb tm att s := by
  intro fuel
  induction fuel with
  | zero =>
    intro tb tm att s h
    rw [sendLoop_guard_false env f msgs maxAtt 0 tb tm att s (by omega), sendLoop_zero]
  | succ fuel ih =>
    intro tb tm att s h
    by_cases hg : tm < msgs.length ∧ att < maxAtt
    · rcases ht : ConnectionPool.take f env s with ⟨co, s1⟩
      cases co with
      | none =>
        rw [sendLoop_succ_take_fail env f msgs maxAtt (fuel + 1) tb tm att s s1 hg ht,
            sendLoop_succ_take_fail env f msgs maxAtt fuel tb tm att s s1 hg ht]
        exact ih _ _ _ _ (by omega)
      | some cid =>
        rcases hr : (sendMsgs env cid msgs tb tm s1).raised with _ | _
        · rw [sendLoop_succ_success env f msgs maxAtt (fuel + 1) tb tm att s cid s1 hg ht hr,
              sendLoop_succ_success env f msgs maxAtt fuel tb tm att s cid s1 hg ht hr]
        · rw [sendLoop_succ_raised env f msgs maxAtt (fuel + 1) tb tm att s cid s1 hg ht hr,
              sendLoop_succ_raised env f msgs maxAtt fuel tb tm att s cid s1 hg ht hr]
          exact ih _ _ _ _ (by omega)
    · rw [sendLoop_guard_false env f msgs maxAtt (fuel + 1) tb tm att s hg,
          sendLoop_guard_false env f msgs maxAtt fuel tb tm att s hg]

/-- Any fuel at least `maxAtt - att` gives the same loop result: the explicit
fuel in `sendLoop` never truncates the while loop. -/
theorem sendLoop_fuel_stable (env : NetEnv) (f : TCPSocketFactory) (msgs : List Msg)
    (maxAtt : Nat) (k : Nat) :
    ∀ fuel tb tm att s, maxAtt ≤ att + fuel →
      sendLoop env f msgs maxAtt (fuel + k) tb tm att s =
        sendLoop env f msgs maxAtt fuel tb tm att s := by
  induction k with
  | zero => intro fuel tb tm att s h; rfl
  | succ k ih =>
    intro fuel tb tm att s h
    have h1 : fuel + (k + 1) = (fuel + k) + 1 := by omega
    rw [h1, sendLoop_fuel_succ env f msgs maxAtt (fuel + k) tb tm att s (by omega)]
    exact ih fuel tb tm att s h

theorem send_allOk_facts (env : NetEnv) (f : TCPSocketFactory) (maxAtt : Nat)
    (msgs : List Msg) (s : TxState)
    (hS : ∀ k, env.sendOk k = true) (hC : ∀ k, env.connOk k = true)
    (hmsgs : msgs ≠ []) (hmax : 1 ≤ maxAtt) :
    ∃ cid s1,
      ConnectionPool.take f env s = (some cid, s1) ∧
      (NetTransport.send env f maxAtt msgs s).raised = false ∧
      (NetTransport.send env f maxAtt msgs s).attempts = 0 ∧
      (NetTransport.send env f maxAtt msgs s).totalMsgs = msgs.length ∧
      (NetTransport.send env f maxAtt msgs s).state.sleeps = s.sleeps + 1 ∧
      (NetTransport.send env f maxAtt msgs s).state.pool =
        (cid :: s1.pool).take s.poolCap ∧
      ((NetTransport.send env f maxAtt msgs s).state.getConn cid).isGood = true ∧
      (NetTransport.send env f maxAtt msgs s).state.socketCounter = s1.socketCounter ∧
      (NetTransport.send env f maxAtt msgs s).state.connectOps = s1.connectOps ∧
      (NetTransport.send env f maxAtt msgs s).state.poolCap = s.poolCap := by
  obtain ⟨mA, rfl⟩ : ∃ mA, maxAtt = mA + 1 := ⟨maxAtt - 1, by omega⟩
  have hsome := take_some_of_connOk f env s hC
  rcases ht : ConnectionPool.take f env s with ⟨co, s1⟩
  rw [ht] at hsome
  cases co with
  | none => simp at hsome
  | some cid =>
  have htf := take_frame f env s
  rw [ht] at htf
  simp only [] at htf
  have hgood : (s1.getConn cid).isGood = true := by
    have := take_good f env s cid (by rw [ht])
    rw [ht] at this
    exact this
  have hall := sendMsgs_allOk env cid msgs 0 0 s1 hS hgood
  have hmf := sendMsgs_frame env cid msgs 0 0 s1
  have htm := sendMsgs_totalMsgs_of_ok env cid msgs 0 0 s1 hall.1
  have hg : (0 : Nat) < msgs.length ∧ (0 : Nat) < mA + 1 := by
    constructor
    · exact List.length_pos.mpr hmsgs
    · omega
  have hloop := sendLoop_succ_success env f msgs (mA + 1) mA 0 0 0 s cid s1 hg ht hall.1
  have hrg : ConnectionPool.release (sendMsgs env cid msgs 0 0 s1).state (some cid) =
      { (sendMsgs env cid msgs 0 0 s1).state with
        pool := (cid :: (sendMsgs env cid msgs 0 0 s1).state.pool).take
          (sendMsgs env cid msgs 0 0 s1).state.poolCap } :=
    release_good _ _ hall.2
  refine ⟨cid, s1, rfl, ?_⟩
  rw [NetTransport.send]
  simp only [hloop, hrg, htm]
  have hnot : ¬(0 + msgs.length < msgs.length) := by omega
  rw [if_neg hnot]
  have hms : ∀ t : TxState, maybeSleep 0 (mA + 1) t = { t with sleeps := t.sleeps + 1 } := by
    intro t
    rw [maybeSleep, if_pos (by omega)]
  rw [hms]
  refine ⟨rfl, rfl, by simp [htm], ?_, ?_, ?_, ?_, ?_, ?_⟩
  · simp only []
    rw [hmf.2.2.1, htf.2.1]
  · simp only []
    rw [hmf.1, hmf.2.1, htf.2.2.2.2.1]
  · simp only [TxState.getConn]
    have := hall.2
    rw [TxState.getConn] at this
    exact this
  · simp only []
    rw [hmf.2.2.2.2.2.1]
  · simp only []
    rw [hmf.2.2.2.2.2.2.1]
  · simp only []
    rw [hmf.2.1, htf.2.2.2.2.1]

theorem take_empty_pool (f : TCPSocketFactory) (env : NetEnv) (s : TxState)
    (hpool : s.pool = []) (hplain : f.tls_enable = false) (hctr : f.counterSet = true)
    (hC : ∀ k, env.connOk k = true) :
    ConnectionPool.take f env s =
      (some s.conns.length,
        { s with conns := s.conns ++ [{ sock := some s.nextSock, ok := true }],
                 pool := [],
                 connectOps := s.connectOps + 1,
                 socketCounter := Counter.inc s.socketCounter 1,
                 nextSock := s.nextSock + 1,
                 takeLog := s.takeLog ++ [false] }) := by
  have htl : takeLoop s.conns s.pool = (none, s.conns, []) := by
    rw [hpool, takeLoop]
  rw [take_eq_fresh f env s s.conns [] htl]
  have hcs : f.create_socket true env
      { s with conns := s.conns, pool := [], takeLog := s.takeLog ++ [false] } =
      (some s.nextSock,
        { s with conns := s.conns, pool := [], takeLog := s.takeLog ++ [false],
                 connectOps := s.connectOps + 1, nextSock := s.nextSock + 1,
                 socketCounter := Counter.inc s.socketCounter 1 }) := by
    rw [TCPSocketFactory.create_socket]
    simp only [hC, Bool.not_true, Bool.false_eq_true, if_false, hplain, Bool.not_false,
      if_true, hctr, Bool.and_self]
  rw [makeConnection_eq_some _ _ _ _ _ hcs]

theorem waitTillUp_status (s : TxState) : (NetTransport.waitTillUp s).status = false := by
  rw [NetTransport.waitTillUp]
  split <;> simp_all

theorem send_raised_iff (env : NetEnv) (f : TCPSocketFactory) (maxAtt : Nat)
    (msgs : List Msg) (s : TxState) :
    (NetTransport.send env f maxAtt msgs s).raised = true ↔
      (NetTransport.send env f maxAtt msgs s).totalMsgs < msgs.length := by
  rw [NetTransport.send]
  by_cases hc : (sendLoop env f msgs maxAtt maxAtt 0 0 0 s).totalMsgs < msgs.length <;>
    simp [hc]

theorem send_delivered (env : NetEnv) (f : TCPSocketFactory) (maxAtt : Nat)
    (msgs : List Msg) (s : TxState) :
    (NetTransport.send env f maxAtt msgs s).state.delivered.length =
      s.delivered.length + (NetTransport.send env f maxAtt msgs s).totalMsgs := by
  have hinv := (sendLoop_invariants env f msgs maxAtt maxAtt 0 0 0 s).1
  rw [NetTransport.send]
  by_cases hc : (sendLoop env f msgs maxAtt maxAtt 0 0 0 s).totalMsgs < msgs.length
  · rw [if_pos hc]
    simp only []
    rw [(closeAll_frame _).1, (waitTillUp_frame _).1]
    show (sendLoop env f msgs maxAtt maxAtt 0 0 0 s).state.delivered.length =
      s.delivered.length + (sendLoop env f msgs maxAtt maxAtt 0 0 0 s).totalMsgs
    omega
  · rw [if_neg hc]
    simp only []
    show (sendLoop env f msgs maxAtt maxAtt 0 0 0 s).state.delivered.length =
      s.delivered.length + (sendLoop env f msgs maxAtt maxAtt 0 0 0 s).totalMsgs
    omega

theorem send_raised_effects (env : NetEnv) (f : TCPSocketFactory) (maxAtt : Nat)
    (msgs : List Msg) (s : TxState)
    (h : (NetTransport.send env f maxAtt msgs s).raised = true) :
    (NetTransport.send env f maxAtt msgs s).attempts = maxAtt ∧
    (NetTransport.send env f maxAtt msgs s).state.sleeps = s.sleeps + (maxAtt - 1) ∧
    (NetTransport.send env f maxAtt msgs s).state.status = false := by
  rw [NetTransport.send] at h ⊢
  by_cases hc : (sendLoop env f msgs maxAtt maxAtt 0 0 0 s).totalMsgs < msgs.length
  · rw [if_pos hc] at h ⊢
    have hex := sendLoop_exhaust env f msgs maxAtt maxAtt 0 0 0 s (by omega) (by omega) hc
    refine ⟨hex.1, ?_, ?_⟩
    · simp only []
      rw [(closeAll_frame _).2.1, (waitTillUp_frame _).2.1]
      show (sendLoop env f msgs maxAtt maxAtt 0 0 0 s).state.sleeps = s.sleeps + (maxAtt - 1)
      omega
    · simp only []
      rw [(closeAll_frame _).2.2.1]
      exact waitTillUp_status _
  · rw [if_neg hc] at h
    simp only [] at h
    exact absurd h (by simp)

theorem sendN_pooled (env : NetEnv) (f : TCPSocketFactory) (maxAtt : Nat)
    (msgs : List Msg)
    (hS : ∀ k, env.sendOk k = true) (hC : ∀ k, env.connOk k = true)
    (hmsgs : msgs ≠ []) (hmax : 1 ≤ maxAtt) :
    ∀ N (s : TxState) (cid : Nat), s.pool = [cid] → (s.getConn cid).isGood = true →
      1 ≤ s.poolCap →
      (sendN env f maxAtt msgs N s).socketCounter = s.socketCounter ∧
      (sendN env f maxAtt msgs N s).connectOps = s.connectOps := by
  intro N
  induction N with
  | zero =>
    intro s cid h1 h2 h3
    exact ⟨rfl, rfl⟩
  | succ N ih =>
    intro s cid h1 h2 h3
    obtain ⟨cid2, s1, ht, hr, hatt, htm, hsl, hpool, hgood, hctr, hcop, hcap⟩ :=
      send_allOk_facts env f maxAtt msgs s hS hC hmsgs hmax
    have htp := take_pooled f env s cid h1 h2
    rw [htp] at ht
    simp only [Prod.mk.injEq, Option.some.injEq] at ht
    obtain ⟨hcid, hs1⟩ := ht
    subst hcid
    subst hs1
    have hpool2 : (NetTransport.send env f maxAtt msgs s).state.pool = [cid] := by
      rw [hpool]
      show ([cid] : List Nat).take s.poolCap = [cid]
      rcases hcp : s.poolCap with _ | c
      · exfalso
        omega
      · simp
    have hcap2 : 1 ≤ (NetTransport.send env f maxAtt msgs s).state.poolCap := by
      omega
    rw [sendN]
    have hrec := ih (NetTransport.send env f maxAtt msgs s).state cid hpool2 hgood hcap2
    refine ⟨?_, ?_⟩
    · rw [hrec.1, hctr]
    · rw [hrec.2, hcop]

/- ------------------------------------------------------------------ -/
/- Claim theorems -/
/- ------------------------------------------------------------------ -/

/-- C1: NetTransport.send never exhibits partial silent success.  The number of
message buffers delivered to the receiver during the call always equals the
call's internally tracked `total_msgs`; whenever fewer buffers were delivered
than requested, the call raises; and a call that raises delivered exactly
`total_msgs` buffers - never more, never fewer. -/
theorem C1_no_partial_silent_success (env : NetEnv) (f : TCPSocketFactory)
    (maxAtt : Nat) (msgs : List Msg) (s : TxState) :
    (NetTransport.send env f maxAtt msgs s).state.delivered.length =
      s.delivered.length + (NetTransport.send env f maxAtt msgs s).totalMsgs ∧
    ((NetTransport.send env f maxAtt msgs s).state.delivered.length <
        s.delivered.length + msgs.length →
      (NetTransport.send env f maxAtt msgs s).raised = true) ∧
    ((NetTransport.send env f maxAtt msgs s).raised = true →
      (NetTransport.send env f maxAtt msgs s).state.delivered.length =
        s.delivered.length + (NetTransport.send env f maxAtt msgs s).totalMsgs) := by
  have hd := send_delivered env f maxAtt msgs s
  have hiff := send_raised_iff env f maxAtt msgs s
  refine ⟨hd, ?_, fun _ => hd⟩
  intro hlt
  exact hiff.mpr (by omega)

/-- C1 witness: a dead receiver delivers 0 of 1 requested buffers, the call
raises, and the accounting identity holds at that concrete input. -/
theorem C1_witness :
    (NetTransport.send envDown plainFactory 3 [[1]] (initState 1)).raised = true ∧
    (NetTransport.send envDown plainFactory 3 [[1]] (initState 1)).state.delivered.length =
      (initState 1).delivered.length +
        (NetTransport.send envDown plainFactory 3 [[1]] (initState 1)).totalMsgs :=
  ⟨(C1_no_partial_silent_success envDown plainFactory 3 [[1]] (initState 1)).2.1 (by decide),
   (C1_no_partial_silent_success envDown plainFactory 3 [[1]] (initState 1)).2.2 (by decide)⟩

/-- C2 (code-bug demonstration): messages [[0],[1],[2]], max_attempts 2, and a
wire that fails the 2nd and 4th raw writes.  Attempt 1 delivers [0] and [1] and
fails on [2]; attempt 2 re-sends from the start, delivering [0] a second time,
and fails on [1].  total_msgs then equals 3 = len(messages), so the loop exits
and send returns without raising - yet the receiver saw [[0],[1],[0]]: [0] was
re-sent (contradicting the claim) and [2] was never delivered. -/
theorem C2_resend_bug :
    (NetTransport.send envDrop24 plainFactory 2 [[0], [1], [2]] (initState 1)).raised
      = false ∧
    (NetTransport.send envDrop24 plainFactory 2 [[0], [1], [2]] (initState 1)).state.delivered
      = [[0], [1], [0]] := by
  decide

/-- C3 counterexample: with two good pooled connections, the first attempt
fails on the wire, and the second attempt still takes its connection from the
pool (takeLog = [true, true]) - no fresh connection is ever created
(connectOps stays 0).  This refutes "every attempt after a failure creates a
fresh connection bypassing the pool". -/
theorem C3_counterexample :
    (NetTransport.send envDrop0 plainFactory 2 [[9]] twoPooled).attempts = 1 ∧
    (NetTransport.send envDrop0 plainFactory 2 [[9]] twoPooled).raised = false ∧
    (NetTransport.send envDrop0 plainFactory 2 [[9]] twoPooled).state.takeLog
      = [true, true] ∧
    (NetTransport.send envDrop0 plainFactory 2 [[9]] twoPooled).state.connectOps = 0 := by
  decide

/-- C3 amended: every attempt, first or later, acquires its connection through
pool.take.  take creates a fresh connection (one connect) exactly when the pool
is empty; when it finds a good pooled connection it hands that one out; and the
connection of a failed attempt is rejected, closed, and not returned to the
pool - so a retry never reuses the connection that just failed, but it does
reuse other pooled connections when present. -/
theorem C3_take_semantics (f : TCPSocketFactory) (env : NetEnv) (s : TxState)
    (cid : Nat) (cs : List Connection) (rest : List Nat) :
    (s.pool = [] →
      (ConnectionPool.take f env s).2.connectOps = s.connectOps + 1 ∧
      (ConnectionPool.take f env s).2.takeLog = s.takeLog ++ [false]) ∧
    (takeLoop s.conns s.pool = (some cid, cs, rest) →
      (cs.getD cid { sock := none, ok := false }).isGood = true ∧
      ConnectionPool.take f env s =
        (some cid, { s with conns := cs, pool := rest, takeLog := s.takeLog ++ [true] })) ∧
    ((ConnectionPool.release (s.setConn cid ((s.getConn cid).reject)) (some cid)).pool
        = s.pool ∧
      (ConnectionPool.release (s.setConn cid ((s.getConn cid).reject))
          (some cid)).getConn cid = { sock := none, ok := false }) := by
  refine ⟨?_, ?_, release_reject s cid⟩
  · intro hpool
    have htl : takeLoop s.conns s.pool = (none, s.conns, []) := by
      rw [hpool, takeLoop]
    rw [take_eq_fresh f env s s.conns [] htl]
    have hcf := create_socket_frame f true env
      { s with conns := s.conns, pool := [], takeLog := s.takeLog ++ [false] }
    rcases hc : f.create_socket true env
      { s with conns := s.conns, pool := [], takeLog := s.takeLog ++ [false] } with ⟨r, s1⟩
    rw [hc] at hcf
    obtain ⟨-, -, -, -, -, -, -, -, -, -, -, htkl, hcop⟩ := hcf
    cases r with
    | none =>
      rw [makeConnection_eq_none _ _ _ _ hc]
      exact ⟨hcop, htkl⟩
    | some sid =>
      rw [makeConnection_eq_some _ _ _ _ _ hc]
      exact ⟨hcop, htkl⟩
  · intro htl
    exact ⟨takeLoop_good s.conns s.pool cid cs rest htl,
      take_eq_pooled f env s cid cs rest htl⟩

/-- C3 amended witness: from an empty pool a take creates a fresh connection;
from a pool whose head is good, takeLoop returns that pooled connection; and a
rejected connection is closed and not re-pooled. -/
theorem C3_take_semantics_witness :
    ((ConnectionPool.take plainFactory allOk (initState 1)).2.connectOps = 0 + 1 ∧
      (ConnectionPool.take plainFactory allOk (initState 1)).2.takeLog = [] ++ [false]) ∧
    ((([{ sock := some 0, ok := true }, { sock := some 1, ok := true }] :
        List Connection).getD 0 { sock := none, ok := false }).isGood = true ∧
      ConnectionPool.take plainFactory allOk twoPooled =
        (some 0,
          { twoPooled with
            conns := twoPooled.conns, pool := [1],
            takeLog := twoPooled.takeLog ++ [true] })) ∧
    ((ConnectionPool.release
        (twoPooled.setConn 0 ((twoPooled.getConn 0).reject)) (some 0)).pool
        = twoPooled.pool ∧
      (ConnectionPool.release
        (twoPooled.setConn 0 ((twoPooled.getConn 0).reject)) (some 0)).getConn 0
        = { sock := none, ok := false }) :=
  ⟨(C3_take_semantics plainFactory allOk (initState 1) 0 [] []).1 rfl,
   (C3_take_semantics plainFactory allOk twoPooled 0 twoPooled.conns [1]).2.1 (by decide),
   (C3_take_semantics plainFactory allOk twoPooled 0 [] []).2.2⟩

/-- C4 counterexample: a capacity-1 pool holding good idle connection 0; a good
connection 1 is released.  Connection 0 is evicted from the pool, but it is not
closed: its socket is still present and it still reports good.  This refutes
"the oldest idle connection is evicted and closed". -/
theorem C4_eviction_counterexample :
    (ConnectionPool.release capOneState (some 1)).pool = [1] ∧
    ((ConnectionPool.release capOneState (some 1)).getConn 0).sock = some 0 ∧
    ((ConnectionPool.release capOneState (some 1)).getConn 0).isGood = true := by
  decide

/-- C4 amended: release(conn) returns conn to the idle pool iff conn.isGood();
a bad connection is closed immediately and never enters the pool; on the good
path no connection is closed at all - when at capacity the oldest idle
connection is silently dropped from the pool (deque maxlen overflow) without
being closed. -/
theorem C4_release_semantics (s : TxState) (cid : Nat) :
    ((s.getConn cid).isGood = true →
      ConnectionPool.release s (some cid) =
        { s with pool := (cid :: s.pool).take s.poolCap } ∧
      (ConnectionPool.release s (some cid)).conns = s.conns ∧
      (0 < s.poolCap → cid ∈ (ConnectionPool.release s (some cid)).pool)) ∧
    ((s.getConn cid).isGood = false →
      (ConnectionPool.release s (some cid)).pool = s.pool ∧
      (ConnectionPool.release s (some cid)).getConn cid
        = { sock := none, ok := false }) := by
  constructor
  · intro hg
    have he := release_good s cid hg
    refine ⟨he, by rw [he], ?_⟩
    intro hcap
    rw [he]
    show cid ∈ (cid :: s.pool).take s.poolCap
    rcases hcp : s.poolCap with _ | c
    · exfalso
      omega
    · simp
  · intro hb
    have he := release_bad s cid hb
    rw [he]
    exact ⟨rfl, getConn_setConn_closed s cid⟩

/-- C4 amended witness: a good connection is pooled (evicting without closing)
and a bad (absent) connection leaves the pool unchanged and is closed. -/
theorem C4_release_semantics_witness :
    (ConnectionPool.release capOneState (some 1) =
      { capOneState with pool := ((1 : Nat) :: capOneState.pool).take capOneState.poolCap } ∧
     (ConnectionPool.release capOneState (some 1)).conns = capOneState.conns ∧
     (0 < capOneState.poolCap → 1 ∈ (ConnectionPool.release capOneState (some 1)).pool)) ∧
    ((ConnectionPool.release (initState 1) (some 0)).pool = (initState 1).pool ∧
     (ConnectionPool.release (initState 1) (some 0)).getConn 0
       = { sock := none, ok := false }) :=
  ⟨(C4_release_semantics capOneState 1).1 (by decide),
   (C4_release_semantics (initState 1) 0).2 (by decide)⟩

/-- C5 counterexample: a single message sent successfully on the first attempt
with max_attempts = 3 still executes one 50 ms backoff sleep (sleeps = 1),
because the bottom-of-loop check `attemptNum < max_attempts` also holds after a
fully successful attempt.  This refutes "no backoff sleep is performed after an
attempt that successfully sent all messages". -/
theorem C5_sleep_after_success :
    (NetTransport.send allOk plainFactory 3 [[7]] (initState 5)).raised = false ∧
    (NetTransport.send allOk plainFactory 3 [[7]] (initState 5)).attempts = 0 ∧
    (NetTransport.send allOk plainFactory 3 [[7]] (initState 5)).state.sleeps = 1 := by
  decide

/-- C5 amended: the fixed backoff sleep runs at the bottom of every loop
iteration whenever the attempt counter is still below max_attempts - after
failed and fully-successful attempts alike.  A send whose every write succeeds
performs exactly one sleep (after its successful single attempt), and a send
that raises has exhausted all max_attempts attempts and slept exactly
max_attempts - 1 times (the sleep is skipped only when attempts are
exhausted). -/
theorem C5_backoff_semantics :
    (∀ (env : NetEnv) (f : TCPSocketFactory) (maxAtt : Nat) (msgs : List Msg)
        (s : TxState), (∀ k, env.sendOk k = true) → (∀ k, env.connOk k = true) →
      msgs ≠ [] → 1 ≤ maxAtt →
      (NetTransport.send env f maxAtt msgs s).raised = false ∧
      (NetTransport.send env f maxAtt msgs s).attempts = 0 ∧
      (NetTransport.send env f maxAtt msgs s).state.sleeps = s.sleeps + 1) ∧
    (∀ (env : NetEnv) (f : TCPSocketFactory) (maxAtt : Nat) (msgs : List Msg)
        (s : TxState),
      (NetTransport.send env f maxAtt msgs s).raised = true →
      (NetTransport.send env f maxAtt msgs s).attempts = maxAtt ∧
      (NetTransport.send env f maxAtt msgs s).state.sleeps = s.sleeps + (maxAtt - 1)) := by
  constructor
  · intro env f maxAtt msgs s hS hC hm hx
    obtain ⟨cid, s1, ht, hr, hatt, htm, hsl, _⟩ :=
      send_allOk_facts env f maxAtt msgs s hS hC hm hx
    exact ⟨hr, hatt, hsl⟩
  · intro env f maxAtt msgs s h
    have he := send_raised_effects env f maxAtt msgs s h
    exact ⟨he.1, he.2.1⟩

/-- C5 amended witness: the all-success case sleeps once, the dead-receiver
case exhausts 3 attempts and sleeps twice. -/
theorem C5_backoff_semantics_witness :
    ((NetTransport.send allOk plainFactory 3 [[7]] (initState 5)).raised = false ∧
     (NetTransport.send allOk plainFactory 3 [[7]] (initState 5)).attempts = 0 ∧
     (NetTransport.send allOk plainFactory 3 [[7]] (initState 5)).state.sleeps =
       (initState 5).sleeps + 1) ∧
    ((NetTransport.send envDown plainFactory 3 [[7]] (initState 5)).attempts = 3 ∧
     (NetTransport.send envDown plainFactory 3 [[7]] (initState 5)).state.sleeps =
       (initState 5).sleeps + (3 - 1)) :=
  ⟨C5_backoff_semantics.1 allOk plainFactory 3 [[7]] (initState 5)
      (fun _ => rfl) (fun _ => rfl) (by decide) (by decide),
   C5_backoff_semantics.2 envDown plainFactory 3 [[7]] (initState 5) (by decide)⟩

/-- C6: starting from a fresh transport with pool capacity at least 1, when
every write and connect succeeds (plain-TCP factory with the counter set), N
sequential send calls of a non-empty batch create exactly one underlying
connection in total: the socket-creation counter and the connect count both
end at 1, for every N at least 1. -/
theorem C6_pool_reuse (env : NetEnv) (f : TCPSocketFactory) (maxAtt cap N : Nat)
    (msgs : List Msg)
    (hS : ∀ k, env.sendOk k = true) (hC : ∀ k, env.connOk k = true)
    (hplain : f.tls_enable = false) (hctr : f.counterSet = true)
    (hmsgs : msgs ≠ []) (hmax : 1 ≤ maxAtt) (hcap : 1 ≤ cap) (hN : 1 ≤ N) :
    (sendN env f maxAtt msgs N (initState cap)).socketCounter = 1 ∧
    (sendN env f maxAtt msgs N (initState cap)).connectOps = 1 := by
  obtain ⟨n, rfl⟩ : ∃ n, N = n + 1 := ⟨N - 1, by omega⟩
  rw [sendN]
  obtain ⟨cid, s1, ht, hr, hatt, htm, hsl, hpool, hgood, hctrS, hcop, hcapS⟩ :=
    send_allOk_facts env f maxAtt msgs (initState cap) hS hC hmsgs hmax
  have hte := take_empty_pool f env (initState cap) rfl hplain hctr hC
  rw [hte] at ht
  simp only [Prod.mk.injEq, Option.some.injEq] at ht
  obtain ⟨hcid, hs1⟩ := ht
  subst hcid
  subst hs1
  have h1 : (NetTransport.send env f maxAtt msgs (initState cap)).state.socketCounter
      = 1 := hctrS
  have h2 : (NetTransport.send env f maxAtt msgs (initState cap)).state.connectOps
      = 1 := hcop
  have hpool2 : (NetTransport.send env f maxAtt msgs (initState cap)).state.pool
      = [(initState cap).conns.length] := by
    rw [hpool]
    show ([(initState cap).conns.length] : List Nat).take (initState cap).poolCap
      = [(initState cap).conns.length]
    rcases hcp : (initState cap).poolCap with _ | c
    · exfalso
      have : (initState cap).poolCap = cap := rfl
      omega
    · simp
  have hcap2 : 1 ≤ (NetTransport.send env f maxAtt msgs (initState cap)).state.poolCap := by
    have h3 : (initState cap).poolCap = cap := rfl
    omega
  have hrec := sendN_pooled env f maxAtt msgs hS hC hmsgs hmax n
    (NetTransport.send env f maxAtt msgs (initState cap)).state
    (initState cap).conns.length hpool2 hgood hcap2
  exact ⟨hrec.1.trans h1, hrec.2.trans h2⟩

/-- C6 witness: two sequential all-success sends from a fresh capacity-1
transport leave both the socket counter and the connect count at 1. -/
theorem C6_witness :
    (sendN allOk plainFactory 3 [[5]] 2 (initState 1)).socketCounter = 1 ∧
    (sendN allOk plainFactory 3 [[5]] 2 (initState 1)).connectOps = 1 :=
  C6_pool_reuse allOk plainFactory 3 1 2 [[5]] (fun _ => rfl) (fun _ => rfl)
    rfl rfl (by decide) (by decide) (by decide) (by decide)

/-- C7: waitTillUp is a compare-and-set DOWN transition.  It always leaves the
status down; it starts a checker thread exactly when it itself flips the status
from up to down; when the status is already down it returns the state
unchanged (no thread started); it is idempotent; and a send that raises leaves
the transport status down. -/
theorem C7_waitTillUp_cas (env : NetEnv) (f : TCPSocketFactory) (maxAtt : Nat)
    (msgs : List Msg) (s : TxState) :
    (NetTransport.waitTillUp s).status = false ∧
    (NetTransport.waitTillUp s).checkerStarts =
      s.checkerStarts + (if s.status then 1 else 0) ∧
    (s.status = false → NetTransport.waitTillUp s = s) ∧
    NetTransport.waitTillUp (NetTransport.waitTillUp s) = NetTransport.waitTillUp s ∧
    ((NetTransport.send env f maxAtt msgs s).raised = true →
      (NetTransport.send env f maxAtt msgs s).state.status = false) := by
  refine ⟨waitTillUp_status s, ?_, ?_, ?_, ?_⟩
  · rw [NetTransport.waitTillUp]
    split <;> simp_all
  · intro h
    rw [NetTransport.waitTillUp, if_neg (by simp [h])]
  · have h1 := waitTillUp_status s
    conv_lhs => rw [NetTransport.waitTillUp]
    rw [if_neg (by simp [h1])]
  · intro h
    exact (send_raised_effects env f maxAtt msgs s h).2.2

/-- C7 witness: a down-status state is returned unchanged, and a concrete
failing send ends with status down. -/
theorem C7_witness :
    NetTransport.waitTillUp { initState 1 with status := false }
      = { initState 1 with status := false } ∧
    (NetTransport.send envDown plainFactory 3 [[1]] (initState 1)).state.status = false :=
  ⟨(C7_waitTillUp_cas envDown plainFactory 3 [[1]]
      { initState 1 with status := false }).2.2.1 rfl,
   (C7_waitTillUp_cas envDown plainFactory 3 [[1]] (initState 1)).2.2.2.2 (by decide)⟩

/-- C8 counterexample: a successful create_socket in TLS mode, with a counter
set and stats requested, returns a socket but leaves the socket-creation
counter untouched - refuting "in plain-TCP mode and in TLS mode alike the
counter is incremented". -/
theorem C8_tls_no_counter :
    (TCPSocketFactory.create_socket tlsFactory true allOk (initState 1)).1 = some 0 ∧
    (TCPSocketFactory.create_socket tlsFactory true allOk (initState 1)).2.socketCounter
      = 0 := by
  decide

/-- C8 amended: every create_socket call makes exactly one connect attempt (no
retry in either mode), and it increments the shared socket counter by exactly
one precisely when it succeeds in plain-TCP mode with stats enabled and a
counter set; the TLS branch never increments the counter. -/
theorem C8_counter_semantics (f : TCPSocketFactory) (stats : Bool) (env : NetEnv)
    (s : TxState) :
    (f.create_socket stats env s).2.connectOps = s.connectOps + 1 ∧
    (f.create_socket stats env s).2.socketCounter =
      s.socketCounter +
        (if (f.create_socket stats env s).1.isSome ∧ f.tls_enable = false ∧
            stats = true ∧ f.counterSet = true then 1 else 0) := by
  rcases hok : env.connOk s.connectOps with _ | _ <;>
    rcases f with ⟨te, tv, ca, cs⟩ <;>
      cases te <;> cases cs <;> cases stats <;>
        simp [TCPSocketFactory.create_socket, hok, Counter.inc]

/-- C9: if Connection.sendall raises, the connection has already flagged itself
bad - isGood() is false on the resulting state with no further system call,
since isGood only reads the two stored fields; and after a sendall that
completes without raising, isGood() is true and the message was appended to
the wire. -/
theorem C9_sendall_flags (env : NetEnv) (cid : Nat) (m : Msg) (s : TxState) :
    ((sendall env cid m s).1 = false →
      ((sendall env cid m s).2.getConn cid).isGood = false) ∧
    ((sendall env cid m s).1 = true →
      ((sendall env cid m s).2.getConn cid).isGood = true ∧
      (sendall env cid m s).2.delivered = s.delivered ++ [m]) := by
  refine ⟨sendall_isGood_false env cid m s, fun h => ⟨(sendall_isGood_true env cid m s h).2, ?_⟩⟩
  have hd := sendall_delivered env cid m s
  rw [h] at hd
  simpa using hd

/-- C9 witness: on a live connection a failing write leaves the connection bad
and a succeeding write leaves it good. -/
theorem C9_witness :
    ((sendall envDown 0 ([] : Msg)
        { initState 1 with conns := [{ sock := some 0, ok := true }] }).2.getConn 0).isGood
      = false ∧
    ((sendall allOk 0 ([] : Msg)
        { initState 1 with conns := [{ sock := some 0, ok := true }] }).2.getConn 0).isGood
      = true :=
  ⟨(C9_sendall_flags envDown 0 ([] : Msg)
      { initState 1 with conns := [{ sock := some 0, ok := true }] }).1 (by decide),
   ((C9_sendall_flags allOk 0 ([] : Msg)
      { initState 1 with conns := [{ sock := some 0, ok := true }] }).2 (by decide)).1⟩

/-- C10: ConnectionPool.release(None) is a total no-op: it returns the state
unchanged (pool untouched) and, being a total function, raises nothing.  The
finally block of NetTransport.send relies on this when connection acquisition
itself failed and conn is still None. -/
theorem C10_release_none (s : TxState) : ConnectionPool.release s none = s := rfl

end Eventlog
